import Mathlib

/-!
Verification of the Azure DevOps MCP server (python) against its
natural-language specification. The Python modules are shallowly embedded:
pure helpers become Lean functions, tool bodies become functions from their
argument record and the remote-service oracles to a run record that captures
the returned text blocks and every remote interaction (token acquisition,
`get_refs` calls, ref updates sent, HTTP requests posted). `arguments.get(k)`
on the untyped argument mapping is embedded as an `Option`-valued field, and
Python truthiness of such a value (`not x` is true for both a missing key and
an empty string) is `pyFalsy`.
-/

/-- Python truthiness of an optional string: `not x` holds when the key is
absent (`None`) or the value is the empty string. -/
def pyFalsy : Option String → Bool
  | none => true
  | some s => s == ""

/-- Python `str.lower()` (over the ASCII range the code uses). -/
def pyLower (s : String) : String := String.mk (s.toList.map Char.toLower)

/-- A whitespace character as Python `str.strip()` removes it. -/
def pyIsSpace (c : Char) : Bool :=
  c == ' ' || c == '\t' || c == '\n' || c == '\r' || c == '\x0b' || c == '\x0c'

/-- Python `str.strip()`: remove leading and trailing whitespace. -/
def pyStrip (s : String) : String :=
  String.mk (((s.toList.dropWhile pyIsSpace).reverse.dropWhile pyIsSpace).reverse)

/-- Splitting a character list at every non-overlapping occurrence of `sep`,
fuelled by the input length so that the recursion is structural; the
zero-fuel branch is never reached when the fuel is the input length. -/
def splitSubFuel (sep : List Char) : Nat → List Char → List Char → List (List Char)
  | 0, l, acc => [acc.reverse ++ l]
  | fuel + 1, l, acc =>
    match l with
    | [] => [acc.reverse]
    | c :: rest =>
      if sep ≠ [] ∧ sep.isPrefixOf (c :: rest) then
        acc.reverse :: splitSubFuel sep fuel ((c :: rest).drop sep.length) []
      else splitSubFuel sep fuel rest (c :: acc)

/-- Python `s.split(sep)` for a nonempty separator. -/
def pySplitOn (s sep : String) : List String :=
  (splitSubFuel sep.toList s.toList.length s.toList []).map String.mk

/-- Python `s.startswith(pre)`. -/
def strStartsWith (s pre : String) : Bool := pre.toList.isPrefixOf s.toList

/-! ## Domain registry (`shared/domains.py`) -/

/-- The nine `Domain` enum values, in declaration order. -/
def availableDomains : List String :=
  ["advanced-security", "pipelines", "core", "repositories", "search",
   "test-plans", "wiki", "work", "work-items"]

/-- The module-level constant `ALL_DOMAINS = "all"`. -/
def ALL_DOMAINS : String := "all"

/-- The set of all nine domain values, the result of `_enable_all_domains`
starting from any subset of it. -/
def allDomainsSet : Finset String := availableDomains.toFinset

/-- The per-entry normalization `d.strip().lower()` applied in
`_handle_array_input` and `_handle_string_input`. -/
def normalizeDomain (s : String) : String := pyLower (pyStrip s)

/-- One iteration of the loop in `DomainsManager._validate_and_add_domains`
(domains.py lines 72-79): a recognized entry is added to the enabled set, an
entry equal to `"all"` enables all domains, and any other entry is reported
to standard output and dropped. The second component accumulates the
reported error lines. -/
def validateStep (acc : Finset String × List String) (domain : String) :
    Finset String × List String :=
  if domain ∈ availableDomains then (insert domain acc.1, acc.2)
  else if domain = ALL_DOMAINS then (acc.1 ∪ allDomainsSet, acc.2)
  else (acc.1,
    acc.2 ++ ["Error: Specified invalid domain '" ++ domain ++
      "'. Please specify exactly as available domains: " ++
      String.intercalate ", " availableDomains])

/-- `DomainsManager._validate_and_add_domains` (domains.py lines 68-82),
starting from the empty enabled set the constructor initializes: iterate
`validateStep` over the entries, then fall back to all domains if the
enabled set is still empty. -/
def validate_and_add_domains (domains : List String) :
    Finset String × List String :=
  let r := domains.foldl validateStep (∅, [])
  if r.1 = ∅ then (allDomainsSet, r.2) else r

/-- The constructor input of `DomainsManager`: `None`, a single string, or a
list of strings. -/
inductive DomainsInput where
  | noval
  | str (s : String)
  | list (l : List String)

/-- `DomainsManager._parse_domains` together with `_handle_array_input` and
`_handle_string_input` (domains.py lines 37-66): a falsy input (absent, empty
string, empty list) enables all domains; a list containing the literal `"all"`
enables all domains; the string `"all"` enables all domains; otherwise the
entries (comma-split for a string) are normalized and validated. Returns the
enabled set and the reported error lines. -/
def parseDomains : DomainsInput → Finset String × List String
  | .noval => (allDomainsSet, [])
  | .str s =>
    if s = "" then (allDomainsSet, [])
    else if s = ALL_DOMAINS then (allDomainsSet, [])
    else validate_and_add_domains ((pySplitOn s ",").map normalizeDomain)
  | .list l =>
    if l = [] then (allDomainsSet, [])
    else if l.length = 0 ∨ ALL_DOMAINS ∈ l then (allDomainsSet, [])
    else validate_and_add_domains (l.map normalizeDomain)

/-- `DomainsManager.is_domain_enabled` (domains.py line 98): membership in
the enabled set. -/
def is_domain_enabled (enabled : Finset String) (domain : String) : Bool :=
  decide (domain ∈ enabled)

/-! ## User-agent composer (`useragent.py`) -/

/-- `McpClientInfo`: client name and version. -/
structure McpClientInfo where
  name : String
  version : String
deriving DecidableEq

/-- The state of a `UserAgentComposer`: the composed string and the
`_mcp_client_info_appended` flag. -/
structure UserAgentComposer where
  user_agent : String
  mcp_client_info_appended : Bool
deriving DecidableEq

/-- The `UserAgentComposer` constructor (useragent.py lines 17-24). -/
def UserAgentComposer.init (packageVersion : String) : UserAgentComposer :=
  ⟨"AzureDevOps.MCP/" ++ packageVersion ++ " (python)", false⟩

/-- `UserAgentComposer.append_mcp_client_info` (useragent.py lines 31-40):
appends a space and `name/version` once, only when the flag is unset and the
info is present with truthy name and version. -/
def append_mcp_client_info (c : UserAgentComposer) (info : Option McpClientInfo) :
    UserAgentComposer :=
  match info with
  | some i =>
    if ¬ c.mcp_client_info_appended ∧ i.name ≠ "" ∧ i.version ≠ "" then
      ⟨c.user_agent ++ " " ++ i.name ++ "/" ++ i.version, true⟩
    else c
  | none => c

/-! ## Authenticator factory, `pat` branch (`auth.py`) -/

/-- The body of the `get_token` closure returned by
`create_authenticator("pat", tenant_id, pat_token)` (auth.py lines 72-77):
raise a configuration error when the stored `pat_token` is falsy, otherwise
return it verbatim. An exception is embedded as `Except.error` carrying the
message. -/
def create_authenticator_pat (patToken : Option String) : Except String String :=
  if pyFalsy patToken then
    .error "PAT token is required for 'pat' authentication"
  else
    .ok (patToken.getD "")

/-! ## Organization-tenant resolver (`org_tenants.py`) -/

/-- `OrgTenantCacheEntry`: tenant ID and refresh timestamp in epoch
milliseconds. -/
structure OrgTenantCacheEntry where
  tenantId : String
  refreshedOn : Int
deriving DecidableEq

/-- `CACHE_TTL_MS = 7 * 24 * 60 * 60 * 1000`. -/
def CACHE_TTL_MS : Int := 7 * 24 * 60 * 60 * 1000

/-- `is_cache_entry_expired` (org_tenants.py lines 105-114), with the current
time `time.time() * 1000` passed explicitly. -/
def is_cache_entry_expired (entry : OrgTenantCacheEntry) (now : Int) : Bool :=
  decide (now - entry.refreshedOn > CACHE_TTL_MS)

/-- The loaded cache dictionary, embedded as an association list keyed by
organization name. -/
abbrev TenantCache := List (String × OrgTenantCacheEntry)

/-- Dictionary read `cache.get(org_name)`. -/
def cacheGet (c : TenantCache) (org : String) : Option OrgTenantCacheEntry :=
  (c.find? (fun p => p.1 == org)).map (·.2)

/-- Dictionary write `cache[org_name] = entry`: replace an existing binding
or append a new one. -/
def cacheSet (c : TenantCache) (org : String) (e : OrgTenantCacheEntry) :
    TenantCache :=
  if (c.find? (fun p => p.1 == org)).isSome then
    c.map (fun p => if p.1 == org then (p.1, e) else p)
  else c ++ [(org, e)]

/-- The observable outcome of one `get_org_tenant` call: the returned value,
whether the live lookup (`fetch_tenant_from_api`) was attempted, and the
cache contents afterwards. -/
structure TenantRun where
  result : Option String
  networkAttempted : Bool
  cacheAfter : TenantCache
deriving DecidableEq

/-- `get_org_tenant` (org_tenants.py lines 117-152). The loaded cache, the
current epoch-millisecond time, and the outcome of the live lookup are passed
explicitly; `fetchResult = .error msg` embeds `fetch_tenant_from_api`
raising. A fresh (unexpired) cache entry is returned without attempting the
lookup; otherwise the lookup is attempted, its success refreshes the cache,
and its failure falls back to the possibly expired cache entry when one
exists, else to `none`. The function is total: no path raises to the
caller. -/
def get_org_tenant (org : String) (cache : TenantCache) (now : Int)
    (fetchResult : Except String String) : TenantRun :=
  let cached := cacheGet cache org
  match cached with
  | some e =>
    if ¬ is_cache_entry_expired e now then ⟨some e.tenantId, false, cache⟩
    else
      match fetchResult with
      | .ok t => ⟨some t, true, cacheSet cache org ⟨t, now⟩⟩
      | .error _ => ⟨some e.tenantId, true, cache⟩
  | none =>
    match fetchResult with
    | .ok t => ⟨some t, true, cacheSet cache org ⟨t, now⟩⟩
    | .error _ => ⟨none, true, cache⟩

/-! ## PAT-gating middleware (`main.py`, `create_custom_app`) -/

/-- The case-insensitive header scan of `custom_app` (main.py lines 197-203):
the value of the first header whose lower-cased key is
`x-azure-devops-pat`, or `none`. -/
def find_pat_token (headers : List (String × String)) : Option String :=
  (headers.find? (fun kv => pyLower kv.1 == "x-azure-devops-pat")).map (·.2)

/-- The exact JSON body of the 401 response (main.py line 220). -/
def authRequiredBody : String :=
  "\x7b\"error\": \"Authentication required\", \"message\": \"Please provide PAT token in X-Azure-DevOps-PAT header\"\x7d"

/-- What the middleware does with one HTTP request. -/
inductive GateResponse where
  | reject (status : Nat) (body : String)
  | forward (patToken : Option String)
deriving DecidableEq

/-- The gating decision of `custom_app` (main.py lines 192-226) for an HTTP
request: extract the PAT header, store it for the tools, and reject with 401
only when the token is falsy, the path is not `"/"` and the method is not
`"GET"`; otherwise forward to the base MCP app with the extracted token as
the request-scoped PAT. -/
def custom_app_gate (path method : String) (headers : List (String × String)) :
    GateResponse :=
  let patToken := find_pat_token headers
  if pyFalsy patToken ∧ path ≠ "/" ∧ method ≠ "GET" then
    .reject 401 authRequiredBody
  else
    .forward patToken

/-! ## Work-item link types (`tools/work_items.py`) -/

/-- The fixed `link_types` table of `get_link_type_from_name`
(work_items.py lines 29-42). -/
def link_types : List (String × String) :=
  [("parent", "System.LinkTypes.Hierarchy-Reverse"),
   ("child", "System.LinkTypes.Hierarchy-Forward"),
   ("duplicate", "System.LinkTypes.Duplicate-Forward"),
   ("duplicate of", "System.LinkTypes.Duplicate-Reverse"),
   ("related", "System.LinkTypes.Related"),
   ("successor", "System.LinkTypes.Dependency-Forward"),
   ("predecessor", "System.LinkTypes.Dependency-Reverse"),
   ("tested by", "Microsoft.VSTS.Common.TestedBy-Forward"),
   ("tests", "Microsoft.VSTS.Common.TestedBy-Reverse"),
   ("affects", "Microsoft.VSTS.Common.Affects-Forward"),
   ("affected by", "Microsoft.VSTS.Common.Affects-Reverse"),
   ("artifact", "ArtifactLink")]

/-- `get_link_type_from_name` (work_items.py lines 27-43):
`link_types.get(name.lower(), name)`. -/
def get_link_type_from_name (name : String) : String :=
  match link_types.find? (fun p => p.1 == pyLower name) with
  | some p => p.2
  | none => name

/-- The single JSON-Patch operation built by `wit_work_items_link`
(work_items.py lines 500-507): `op`, `path`, and the `rel` and `url` fields
of its `value` object. -/
structure JsonPatchOp where
  op : String
  path : String
  rel : String
  url : String
deriving DecidableEq

/-- The arguments read by `wit_work_items_link`. -/
structure LinkArgs where
  sourceId : Option String
  targetId : Option String
  linkType : Option String
deriving DecidableEq

/-- The result of `wit_work_items_link`: either the single validation-error
text block, or the patch document passed to
`wit_client.update_work_item`. -/
inductive LinkResult where
  | errorText (msg : String)
  | updated (patch : List JsonPatchOp)
deriving DecidableEq

/-- `wit_work_items_link` (work_items.py lines 479-530) up to the remote
`update_work_item` call: `linkType` defaults to `"related"`, the two IDs are
validated, and the patch adds one relation at the relations append path
(the literal path string is the `path` field of the built operation) whose
`rel` is the resolved link type and whose `url` is
`<org_url>/_apis/wit/workItems/<target_id>`. -/
def wit_work_items_link (orgUrl : String) (a : LinkArgs) : LinkResult :=
  let linkType := a.linkType.getD "related"
  if pyFalsy a.sourceId then .errorText "Error: sourceId parameter is required"
  else if pyFalsy a.targetId then .errorText "Error: targetId parameter is required"
  else
    .updated [⟨"add", "/relations/-", get_link_type_from_name linkType,
      orgUrl ++ "/_apis/wit/workItems/" ++ a.targetId.getD ""⟩]

/-! ## Branch creation (`tools/repositories.py`, `repo_create_branch`) -/

/-- A git ref as returned by `git_client.get_refs`; only the `object_id`
field is read by `repo_create_branch`. -/
structure GitRef where
  objectId : String
deriving DecidableEq

/-- The parameters of one `git_client.get_refs` call. -/
structure GetRefsCall where
  project : String
  repositoryId : String
  filter : String
deriving DecidableEq

/-- One ref update as passed to `git_client.update_refs`
(repositories.py lines 277-281). -/
structure RefUpdate where
  name : String
  oldObjectId : String
  newObjectId : String
deriving DecidableEq

/-- The arguments read by `repo_create_branch`
(repositories.py lines 231-234). -/
structure CreateBranchArgs where
  project : Option String
  repositoryId : Option String
  branchName : Option String
  sourceBranch : Option String
deriving DecidableEq

/-- The single text block returned by `repo_create_branch`: a validation or
not-found error text, or the success payload (serialized as JSON by the
code) recording the source branch, the new branch and the ref update that
was sent. -/
inductive BranchResult where
  | errorText (msg : String)
  | created (sourceBranch newBranch : String) (refUpdate : RefUpdate)
deriving DecidableEq

/-- The observable run of one `repo_create_branch` call: its single result
block, whether `token_provider` was invoked, and the remote `get_refs` and
`update_refs` interactions. -/
structure BranchRun where
  result : BranchResult
  tokenAcquired : Bool
  refsQueried : List GetRefsCall
  refUpdatesSent : List RefUpdate
deriving DecidableEq

/-- The prefixing applied to branch names (repositories.py lines 259 and
275): prepend `refs/heads/` unless the name already starts with `refs/`. -/
def qualifyRef (branch : String) : String :=
  if strStartsWith branch "refs/" then branch else "refs/heads/" ++ branch

/-- The all-zero old-object-id sentinel (repositories.py line 279). -/
def ZERO_OBJECT_ID : String := "0000000000000000000000000000000000000000"

/-- `repo_create_branch` (repositories.py lines 226-303). The required
arguments are validated in source order before any token acquisition or
remote call; `sourceBranch` defaults to `"main"`; the source ref is resolved
via `get_refs` (oracle `getRefs`), an empty result is the not-found error,
and otherwise one ref update from `ZERO_OBJECT_ID` to the first resolved
ref's object id at the qualified new branch name is sent to
`update_refs`. -/
def repo_create_branch (a : CreateBranchArgs)
    (getRefs : GetRefsCall → List GitRef) : BranchRun :=
  let sourceBranch := a.sourceBranch.getD "main"
  if pyFalsy a.project then
    ⟨.errorText "Error: project parameter is required", false, [], []⟩
  else if pyFalsy a.repositoryId then
    ⟨.errorText "Error: repositoryId parameter is required", false, [], []⟩
  else if pyFalsy a.branchName then
    ⟨.errorText "Error: branchName parameter is required", false, [], []⟩
  else
    let call : GetRefsCall :=
      ⟨a.project.getD "", a.repositoryId.getD "", qualifyRef sourceBranch⟩
    match getRefs call with
    | [] =>
      ⟨.errorText ("Source branch '" ++ sourceBranch ++ "' not found"),
        true, [call], []⟩
    | ref :: _ =>
      let refUpdate : RefUpdate :=
        ⟨qualifyRef (a.branchName.getD ""), ZERO_OBJECT_ID, ref.objectId⟩
      ⟨.created sourceBranch (a.branchName.getD "") refUpdate,
        true, [call], [refUpdate]⟩

/-! ## Code search (`tools/search.py`, `search_code`) -/

/-- A substring test, `pat in s` for a nonempty pattern. -/
def strContains (s pat : String) : Bool := (pySplitOn s pat).length > 1

/-- Python `s.strip("/")`: remove leading and trailing slashes. -/
def stripSlashes (s : String) : String :=
  String.mk (((s.toList.dropWhile (· = '/')).reverse.dropWhile (· = '/')).reverse)

/-- The netloc component of `urlparse`, modelled for `scheme://netloc/path`
URLs (the only shape the organization URL takes). -/
def urlNetloc (u : String) : String :=
  match pySplitOn u "://" with
  | _ :: rest :: _ => ((pySplitOn rest "/").headD "")
  | _ => ""

/-- The path component of `urlparse`, modelled for `scheme://netloc/path`
URLs: empty when nothing follows the netloc. -/
def urlPath (u : String) : String :=
  match pySplitOn u "://" with
  | _ :: rest :: _ =>
    match pySplitOn rest "/" with
    | _ :: [] => ""
    | _ :: ps => "/" ++ String.intercalate "/" ps
    | [] => ""
  | _ => u

/-- `get_org_name_from_url` (search.py lines 29-40): organization short name
from a `dev.azure.com/<org>` or `<org>.visualstudio.com` URL, with the
documented fallback to the first path segment or `"unknown"`. -/
def get_org_name_from_url (orgUrl : String) : String :=
  let netloc := urlNetloc orgUrl
  let path := urlPath orgUrl
  if strContains netloc "dev.azure.com" then stripSlashes path
  else if strContains netloc "visualstudio.com" then (pySplitOn netloc ".").headD ""
  else if path ≠ "" then (pySplitOn (stripSlashes path) "/").headD ""
  else "unknown"

/-- An untyped argument that the code normalizes with
`x if isinstance(x, list) else [x]`: either a scalar string or a list of
strings. -/
inductive StrOrList where
  | str (s : String)
  | list (xs : List String)
deriving DecidableEq

/-- Python truthiness of a `StrOrList`. -/
def StrOrList.truthy : StrOrList → Bool
  | .str s => !s.isEmpty
  | .list xs => !xs.isEmpty

/-- The `isinstance(x, list)` normalization. -/
def StrOrList.asList : StrOrList → List String
  | .str s => [s]
  | .list xs => xs

/-- The arguments read by `search_code` (search.py lines 64-71). -/
structure SearchCodeArgs where
  searchText : Option String
  project : Option StrOrList
  repository : Option StrOrList
  path : Option StrOrList
  branch : Option StrOrList
  includeFacets : Option Bool
  skip : Option Int
  top : Option Int
deriving DecidableEq

/-- The POST request `search_code` sends: URL, the JSON body fields
`searchText`, `includeFacets`, `$skip`, `$top`, and the `filters` object
(absent when empty). -/
structure SearchRequest where
  url : String
  searchText : String
  includeFacets : Bool
  skip : Int
  top : Int
  filters : List (String × List String)
deriving DecidableEq

/-- The single text block returned by `search_code`: an error text, or the
re-serialized JSON body of a 200 response. -/
inductive SearchResult where
  | errorText (msg : String)
  | success (body : String)
deriving DecidableEq

/-- The observable run of one `search_code` call: its single result block,
whether `token_provider` was invoked, and the request posted to the search
endpoint, if any. -/
structure SearchRun where
  result : SearchResult
  tokenAcquired : Bool
  posted : Option SearchRequest
deriving DecidableEq

/-- `search_code` (search.py lines 59-130). `searchText` is validated before
any token acquisition or network call; defaults are `[]` for the four filter
arguments, `false` for `includeFacets`, `0` for `skip`, `5` for `top`; each
supplied filter is normalized to a list and added under its fixed key; the
response oracle returns the HTTP status and body, a 200 yielding the
serialized results and anything else the error text with status and
body. -/
def search_code (orgUrl : String) (a : SearchCodeArgs)
    (respond : SearchRequest → Nat × String) : SearchRun :=
  let project := a.project.getD (.list [])
  let repository := a.repository.getD (.list [])
  let path := a.path.getD (.list [])
  let branch := a.branch.getD (.list [])
  if pyFalsy a.searchText then
    ⟨.errorText "Error: searchText parameter is required", false, none⟩
  else
    let orgName := get_org_name_from_url orgUrl
    let url := "https://almsearch.dev.azure.com/" ++ orgName ++
      "/_apis/search/codesearchresults?api-version=6.0-preview.1"
    let filters :=
      (if project.truthy then [("Project", project.asList)] else []) ++
      (if repository.truthy then [("Repository", repository.asList)] else []) ++
      (if path.truthy then [("Path", path.asList)] else []) ++
      (if branch.truthy then [("Branch", branch.asList)] else [])
    let req : SearchRequest :=
      ⟨url, a.searchText.getD "", a.includeFacets.getD false,
        a.skip.getD 0, a.top.getD 5, filters⟩
    let resp := respond req
    if resp.1 = 200 then ⟨.success resp.2, true, some req⟩
    else
      ⟨.errorText ("Error searching code: HTTP " ++ toString resp.1 ++
        " - " ++ resp.2), true, some req⟩

/-! ## Theorems -/

/-- Helper for C9: once the appended flag is set, `append_mcp_client_info`
is the identity, whatever the argument. -/
theorem append_absorbed (c : UserAgentComposer) (info : Option McpClientInfo)
    (h : c.mcp_client_info_appended = true) :
    append_mcp_client_info c info = c := by
  cases info with
  | none => rfl
  | some i => simp [append_mcp_client_info, h]

/-- C9: for every composer state and client info, appending the same info
twice yields the same `user_agent` string as appending it once; appending an
absent info, or one with an empty name or version, leaves the string
unchanged; and once a call has set the appended flag, any further call
sequence leaves the whole state (hence the string) unchanged, so the string
changes at most once over any call sequence. -/
theorem user_agent_append (c : UserAgentComposer) (info : Option McpClientInfo) :
    (append_mcp_client_info (append_mcp_client_info c info) info).user_agent
        = (append_mcp_client_info c info).user_agent ∧
    ((info = none ∨ ∃ i, info = some i ∧ (i.name = "" ∨ i.version = "")) →
      (append_mcp_client_info c info).user_agent = c.user_agent) ∧
    (∀ infos : List (Option McpClientInfo), c.mcp_client_info_appended = true →
      infos.foldl append_mcp_client_info c = c) := by
  refine ⟨?_, ?_, ?_⟩
  · cases info with
    | none => rfl
    | some i =>
      by_cases h : ¬ c.mcp_client_info_appended = true ∧ i.name ≠ "" ∧ i.version ≠ ""
      · have h1 : append_mcp_client_info c (some i)
            = ⟨c.user_agent ++ " " ++ i.name ++ "/" ++ i.version, true⟩ := by
          simp only [append_mcp_client_info]
          rw [if_pos h]
        rw [h1, append_absorbed _ _ rfl]
      · have h1 : append_mcp_client_info c (some i) = c := by
          simp only [append_mcp_client_info]
          rw [if_neg h]
        rw [h1, h1]
  · rintro (rfl | ⟨i, rfl, hi⟩)
    · rfl
    · rcases hi with h | h <;> simp [append_mcp_client_info, h]
  · intro infos h
    induction infos with
    | nil => rfl
    | cons x xs ih => rw [List.foldl_cons, append_absorbed c x h]; exact ih

/-- Witness for C9 at a concrete composer and client info. -/
theorem user_agent_append_witness :
    (append_mcp_client_info
        (append_mcp_client_info (UserAgentComposer.init "2.2.1")
          (some ⟨"vscode", "1.0"⟩)) (some ⟨"vscode", "1.0"⟩)).user_agent
      = (append_mcp_client_info (UserAgentComposer.init "2.2.1")
          (some ⟨"vscode", "1.0"⟩)).user_agent ∧
    (append_mcp_client_info (UserAgentComposer.init "2.2.1")
        (some ⟨"", "1.0"⟩)).user_agent
      = (UserAgentComposer.init "2.2.1").user_agent :=
  ⟨(user_agent_append (UserAgentComposer.init "2.2.1") (some ⟨"vscode", "1.0"⟩)).1,
   (user_agent_append (UserAgentComposer.init "2.2.1") (some ⟨"", "1.0"⟩)).2.1
     (Or.inr ⟨⟨"", "1.0"⟩, rfl, Or.inl rfl⟩)⟩

/-- C6: the token provider created with type `pat` returns exactly the
supplied PAT string when a non-empty one was supplied, and raises the
configuration error `PAT token is required for 'pat' authentication` when
the token is absent (or empty, which Python truthiness treats as
unsupplied). -/
theorem create_authenticator_pat_behavior :
    (∀ s : String, s ≠ "" → create_authenticator_pat (some s) = .ok s) ∧
    create_authenticator_pat none
      = .error "PAT token is required for 'pat' authentication" ∧
    create_authenticator_pat (some "")
      = .error "PAT token is required for 'pat' authentication" := by
  refine ⟨fun s hs => ?_, rfl, rfl⟩
  simp [create_authenticator_pat, pyFalsy, hs]

/-- Witness for C6 at a concrete PAT token. -/
theorem create_authenticator_pat_behavior_witness :
    create_authenticator_pat (some "secret-pat-token") = .ok "secret-pat-token" :=
  create_authenticator_pat_behavior.1 "secret-pat-token" (by decide)

/-- C4: when the cache holds an entry for the organization whose
`refreshedOn` is at most `CACHE_TTL_MS` (604,800,000 ms) older than the
current time, `get_org_tenant` returns its tenant ID without attempting the
live lookup and leaves the cache unchanged; when the entry is older than the
TTL, the live lookup is attempted. -/
theorem tenant_cache_ttl (org : String) (cache : TenantCache) (now : Int)
    (fetchResult : Except String String) (e : OrgTenantCacheEntry)
    (hc : cacheGet cache org = some e) :
    (now - e.refreshedOn ≤ CACHE_TTL_MS →
      get_org_tenant org cache now fetchResult = ⟨some e.tenantId, false, cache⟩) ∧
    (now - e.refreshedOn > CACHE_TTL_MS →
      (get_org_tenant org cache now fetchResult).networkAttempted = true) := by
  constructor
  · intro h
    have hx : ¬ (now - e.refreshedOn > CACHE_TTL_MS) := not_lt.mpr h
    simp [get_org_tenant, hc, is_cache_entry_expired, hx]
  · intro h
    cases fetchResult <;> simp [get_org_tenant, hc, is_cache_entry_expired, h]

/-- Witness for C4: a fresh entry is served from the cache with no lookup,
and an entry one millisecond past the TTL triggers the lookup. -/
theorem tenant_cache_ttl_witness :
    get_org_tenant "contoso" [("contoso", ⟨"tid-1", 0⟩)] 5 (.error "down")
      = ⟨some "tid-1", false, [("contoso", ⟨"tid-1", 0⟩)]⟩ ∧
    (get_org_tenant "contoso" [("contoso", ⟨"tid-1", 0⟩)] (CACHE_TTL_MS + 1)
        (.error "down")).networkAttempted = true :=
  ⟨(tenant_cache_ttl "contoso" [("contoso", ⟨"tid-1", 0⟩)] 5 (.error "down")
      ⟨"tid-1", 0⟩ (by decide)).1 (by decide),
   (tenant_cache_ttl "contoso" [("contoso", ⟨"tid-1", 0⟩)] (CACHE_TTL_MS + 1)
      (.error "down") ⟨"tid-1", 0⟩ (by decide)).2 (by decide)⟩

/-- C5: when the live lookup fails, `get_org_tenant` returns the tenant ID
of the (possibly expired) cache entry for the organization if one exists and
`none` when no entry exists; the embedding is a total function, mirroring
the code's catch-all that never lets the failure propagate to the caller. -/
theorem tenant_lookup_failure_fallback (org : String) (cache : TenantCache)
    (now : Int) (msg : String) :
    (∀ e, cacheGet cache org = some e →
      (get_org_tenant org cache now (.error msg)).result = some e.tenantId) ∧
    (cacheGet cache org = none →
      (get_org_tenant org cache now (.error msg)).result = none) := by
  constructor
  · intro e he
    by_cases hx : is_cache_entry_expired e now = true <;>
      simp [get_org_tenant, he, hx]
  · intro he
    simp [get_org_tenant, he]

/-- Witness for C5: an expired cache entry is returned on lookup failure,
and an empty cache yields `none`. -/
theorem tenant_lookup_failure_fallback_witness :
    (get_org_tenant "contoso" [("contoso", ⟨"tid-1", 0⟩)] (CACHE_TTL_MS + 1)
        (.error "down")).result = some "tid-1" ∧
    (get_org_tenant "contoso" [] 0 (.error "down")).result = none :=
  ⟨(tenant_lookup_failure_fallback "contoso" [("contoso", ⟨"tid-1", 0⟩)]
      (CACHE_TTL_MS + 1) "down").1 ⟨"tid-1", 0⟩ (by decide),
   (tenant_lookup_failure_fallback "contoso" [] 0 "down").2 (by decide)⟩

/-- C1 counterexample: the claim as stated is false on the code. A GET
request to the non-root path `/mcp` without the `X-Azure-DevOps-PAT` header
is forwarded to the underlying MCP app, not rejected with 401, because the
middleware's condition also exempts every GET request; and a request whose
header is present with an empty value is rejected, not forwarded, because
the extracted token is falsy. -/
theorem pat_gate_counterexample :
    custom_app_gate "/mcp" "GET" [] = .forward none ∧
    custom_app_gate "/mcp" "POST" [("X-Azure-DevOps-PAT", "")]
      = .reject 401 authRequiredBody := by
  exact ⟨by decide, by decide⟩

/-- C1 amended: for every HTTP request whose path is not `/`, whose method
is not GET, and whose `X-Azure-DevOps-PAT` header is absent or empty, the
middleware responds 401 with the documented JSON error body; a request
carrying the header with a non-empty value is forwarded to the underlying
MCP app with that token. -/
theorem pat_gate_amended (path method : String) (headers : List (String × String)) :
    (path ≠ "/" → method ≠ "GET" → pyFalsy (find_pat_token headers) = true →
      custom_app_gate path method headers = .reject 401 authRequiredBody) ∧
    (∀ t, find_pat_token headers = some t → t ≠ "" →
      custom_app_gate path method headers = .forward (some t)) := by
  constructor
  · intro hp hm hf
    simp [custom_app_gate, hp, hm, hf]
  · intro t ht hne
    simp [custom_app_gate, ht, pyFalsy, hne]

/-- Witness for C1 amended: a POST to `/mcp` without the header is rejected
with the documented body, and the same request with a token is forwarded. -/
theorem pat_gate_amended_witness :
    custom_app_gate "/mcp" "POST" [] = .reject 401 authRequiredBody ∧
    custom_app_gate "/mcp" "POST" [("X-Azure-DevOps-PAT", "tok1234567")]
      = .forward (some "tok1234567") :=
  ⟨(pat_gate_amended "/mcp" "POST" []).1 (by decide) (by decide) (by decide),
   (pat_gate_amended "/mcp" "POST" [("X-Azure-DevOps-PAT", "tok1234567")]).2
     "tok1234567" (by decide) (by decide)⟩

/-- C8: linking with `linkType = "child"` produces the single JSON-Patch add
operation on the relations array whose value's `rel` is
`System.LinkTypes.Hierarchy-Forward`; any link-type string whose lower-cased
form is not a key of the fixed `link_types` table (the table's matching is
case-insensitive) is passed through unchanged as the `rel` value, both by
`get_link_type_from_name` and in the patch the tool builds. -/
theorem link_type_resolution :
    (∀ orgUrl src tgt : String, src ≠ "" → tgt ≠ "" →
      wit_work_items_link orgUrl ⟨some src, some tgt, some "child"⟩ =
        .updated [⟨"add", "/relations/-", "System.LinkTypes.Hierarchy-Forward",
          orgUrl ++ "/_apis/wit/workItems/" ++ tgt⟩]) ∧
    (∀ s, link_types.find? (fun p => p.1 == pyLower s) = none →
      get_link_type_from_name s = s) ∧
    (∀ orgUrl src tgt s : String, src ≠ "" → tgt ≠ "" →
      link_types.find? (fun p => p.1 == pyLower s) = none →
      wit_work_items_link orgUrl ⟨some src, some tgt, some s⟩ =
        .updated [⟨"add", "/relations/-", s,
          orgUrl ++ "/_apis/wit/workItems/" ++ tgt⟩]) := by
  have hchild : get_link_type_from_name "child"
      = "System.LinkTypes.Hierarchy-Forward" := by decide
  refine ⟨fun orgUrl src tgt hs ht => ?_, fun s h => ?_, fun orgUrl src tgt s hs ht h => ?_⟩
  · simp [wit_work_items_link, pyFalsy, hs, ht, hchild]
  · simp [get_link_type_from_name, h]
  · simp [wit_work_items_link, pyFalsy, hs, ht, get_link_type_from_name, h]

/-- Witness for C8: a concrete `child` link and a concrete unrecognized
link-type string. -/
theorem link_type_resolution_witness :
    wit_work_items_link "https://dev.azure.com/contoso" ⟨some "1", some "2", some "child"⟩ =
      .updated [⟨"add", "/relations/-", "System.LinkTypes.Hierarchy-Forward",
        "https://dev.azure.com/contoso/_apis/wit/workItems/2"⟩] ∧
    get_link_type_from_name "Custom.LinkType" = "Custom.LinkType" :=
  ⟨link_type_resolution.1 "https://dev.azure.com/contoso" "1" "2"
     (by decide) (by decide),
   link_type_resolution.2.1 "Custom.LinkType" (by decide)⟩

/-- C2: in the two cited tool operations, a missing (or empty, per Python
truthiness) required argument makes the operation return the single text
block `Error: <argumentName> parameter is required` for a genuinely missing
required argument as a normal result, without invoking the token provider
and without any remote interaction (no `get_refs` call, no ref update, no
HTTP request posted). -/
theorem required_argument_validation :
    (∀ (a : CreateBranchArgs) (getRefs : GetRefsCall → List GitRef),
      (pyFalsy a.project = true ∨ pyFalsy a.repositoryId = true ∨
        pyFalsy a.branchName = true) →
      ∃ nm, nm ∈ (["project", "repositoryId", "branchName"] : List String) ∧
        pyFalsy (if nm = "project" then a.project
                 else if nm = "repositoryId" then a.repositoryId
                 else a.branchName) = true ∧
        repo_create_branch a getRefs =
          ⟨.errorText ("Error: " ++ nm ++ " parameter is required"),
            false, [], []⟩) ∧
    (∀ (orgUrl : String) (a : SearchCodeArgs) (respond : SearchRequest → Nat × String),
      pyFalsy a.searchText = true →
      search_code orgUrl a respond =
        ⟨.errorText "Error: searchText parameter is required", false, none⟩) := by
  constructor
  · intro a getRefs h
    by_cases hp : pyFalsy a.project = true
    · exact ⟨"project", by simp, by simpa using hp,
        by simp [repo_create_branch, hp]⟩
    · by_cases hr : pyFalsy a.repositoryId = true
      · refine ⟨"repositoryId", by simp, ?_, by simp [repo_create_branch, hp, hr]⟩
        have h1 : ("repositoryId" : String) ≠ "project" := by decide
        simp [h1, hr]
      · have hb : pyFalsy a.branchName = true := by tauto
        refine ⟨"branchName", by simp, ?_, by simp [repo_create_branch, hp, hr, hb]⟩
        have h1 : ("branchName" : String) ≠ "project" := by decide
        have h2 : ("branchName" : String) ≠ "repositoryId" := by decide
        simp [h1, h2, hb]
  · intro orgUrl a respond h
    simp [search_code, h]

/-- Witness for C2: `repo_create_branch` with a missing `project` and
`search_code` with a missing `searchText`. -/
theorem required_argument_validation_witness :
    (∃ nm, nm ∈ (["project", "repositoryId", "branchName"] : List String) ∧
      pyFalsy (if nm = "project" then (none : Option String)
               else if nm = "repositoryId" then some "repo-1"
               else some "feature") = true ∧
      repo_create_branch ⟨none, some "repo-1", some "feature", none⟩ (fun _ => []) =
        ⟨.errorText ("Error: " ++ nm ++ " parameter is required"),
          false, [], []⟩) ∧
    search_code "https://dev.azure.com/contoso"
        ⟨none, none, none, none, none, none, none, none⟩ (fun _ => (200, "ok")) =
      ⟨.errorText "Error: searchText parameter is required", false, none⟩ :=
  ⟨required_argument_validation.1 ⟨none, some "repo-1", some "feature", none⟩
     (fun _ => []) (Or.inl (by decide)),
   required_argument_validation.2 "https://dev.azure.com/contoso"
     ⟨none, none, none, none, none, none, none, none⟩ (fun _ => (200, "ok"))
     (by decide)⟩

/-- C7: when validation passes, `repo_create_branch` resolves the source
ref of `sourceBranch` (defaulting to `main` when the argument is absent,
hence querying `refs/heads/main`), and on success sends exactly one ref
update whose `oldObjectId` is the 40-character all-zero hex string and whose
`newObjectId` is the resolved source ref's object id, regardless of which
branch is the source. -/
theorem create_branch_ref_update (a : CreateBranchArgs)
    (getRefs : GetRefsCall → List GitRef)
    (hp : pyFalsy a.project = false) (hr : pyFalsy a.repositoryId = false)
    (hb : pyFalsy a.branchName = false) :
    (a.sourceBranch = none →
      (repo_create_branch a getRefs).refsQueried =
        [⟨a.project.getD "", a.repositoryId.getD "", "refs/heads/main"⟩]) ∧
    (∀ ref rest,
      getRefs ⟨a.project.getD "", a.repositoryId.getD "",
        qualifyRef (a.sourceBranch.getD "main")⟩ = ref :: rest →
      repo_create_branch a getRefs =
        ⟨.created (a.sourceBranch.getD "main") (a.branchName.getD "")
            ⟨qualifyRef (a.branchName.getD ""), ZERO_OBJECT_ID, ref.objectId⟩,
          true,
          [⟨a.project.getD "", a.repositoryId.getD "",
            qualifyRef (a.sourceBranch.getD "main")⟩],
          [⟨qualifyRef (a.branchName.getD ""), ZERO_OBJECT_ID, ref.objectId⟩]⟩) := by
  constructor
  · intro hs
    have hq : qualifyRef "main" = "refs/heads/main" := by decide
    cases hx : getRefs ⟨a.project.getD "", a.repositoryId.getD "",
        qualifyRef (a.sourceBranch.getD "main")⟩ <;>
      simp [repo_create_branch, hp, hr, hb, hs, hq] at hx ⊢ <;>
      simp [hx]
  · intro ref rest hx
    simp [repo_create_branch, hp, hr, hb, hx]

/-- Witness for C7: creating `feature` from the default `main` source sends
the zero-to-resolved-object-id ref update. -/
theorem create_branch_ref_update_witness :
    repo_create_branch ⟨some "proj", some "repo-1", some "feature", none⟩
        (fun _ => [⟨"abc123def456"⟩]) =
      ⟨.created "main" "feature"
          ⟨"refs/heads/feature", ZERO_OBJECT_ID, "abc123def456"⟩, true,
        [⟨"proj", "repo-1", "refs/heads/main"⟩],
        [⟨"refs/heads/feature", ZERO_OBJECT_ID, "abc123def456"⟩]⟩ :=
  (create_branch_ref_update ⟨some "proj", some "repo-1", some "feature", none⟩
      (fun _ => [⟨"abc123def456"⟩]) (by decide) (by decide) (by decide)).2
    ⟨"abc123def456"⟩ [] rfl

/-- Helper: over entries none of which is `"all"`, the validation fold adds
exactly the recognized entries to the accumulated enabled set. -/
theorem validate_foldl_no_all (ds : List String)
    (h : ∀ d ∈ ds, d ≠ ALL_DOMAINS) :
    ∀ E errs, (ds.foldl validateStep (E, errs)).1 =
      E ∪ (ds.filter (fun d => decide (d ∈ availableDomains))).toFinset := by
  induction ds with
  | nil => intro E errs; simp
  | cons d tl ih =>
    intro E errs
    have hd : d ≠ ALL_DOMAINS := h d (by simp)
    have htl : ∀ x ∈ tl, x ≠ ALL_DOMAINS := fun x hx => h x (by simp [hx])
    by_cases hmem : d ∈ availableDomains
    · rw [List.foldl_cons,
        show validateStep (E, errs) d = (insert d E, errs) by
          simp [validateStep, hmem],
        ih htl]
      rw [List.filter_cons_of_pos (by simpa using hmem)]
      ext x
      simp only [Finset.mem_union, Finset.mem_insert, List.mem_toFinset,
        List.mem_cons]
      tauto
    · rw [List.foldl_cons,
        show validateStep (E, errs) d = (E, errs ++
          ["Error: Specified invalid domain '" ++ d ++
            "'. Please specify exactly as available domains: " ++
            String.intercalate ", " availableDomains]) by
          simp [validateStep, hmem, hd],
        ih htl]
      rw [List.filter_cons_of_neg (by simpa using hmem)]

/-- Helper: the validation fold never enables anything outside the nine
declared domains. -/
theorem validate_foldl_subset (ds : List String) :
    ∀ E errs, E ⊆ allDomainsSet →
      (ds.foldl validateStep (E, errs)).1 ⊆ allDomainsSet := by
  induction ds with
  | nil => intro E errs hE; simpa using hE
  | cons d tl ih =>
    intro E errs hE
    rw [List.foldl_cons]
    by_cases h1 : d ∈ availableDomains
    · rw [show validateStep (E, errs) d = (insert d E, errs) by
        simp [validateStep, h1]]
      refine ih _ _ ?_
      intro x hx
      rcases Finset.mem_insert.mp hx with h | h
      · subst h; exact List.mem_toFinset.mpr h1
      · exact hE h
    · by_cases h2 : d = ALL_DOMAINS
      · subst h2
        rw [show validateStep (E, errs) ALL_DOMAINS = (E ∪ allDomainsSet, errs) by
          simp [validateStep, h1]]
        refine ih _ _ ?_
        intro x hx
        rcases Finset.mem_union.mp hx with h | h
        · exact hE h
        · exact h
      · rw [show validateStep (E, errs) d = (E, errs ++
          ["Error: Specified invalid domain '" ++ d ++
            "'. Please specify exactly as available domains: " ++
            String.intercalate ", " availableDomains]) by
          simp [validateStep, h1, h2]]
        exact ih _ _ hE

/-- Helper: the set of all nine domains is nonempty. -/
theorem allDomainsSet_nonempty : allDomainsSet.Nonempty :=
  ⟨"core", by decide⟩

/-- Helper: `validate_and_add_domains` yields a nonempty subset of the nine
domains. -/
theorem validate_and_add_nonempty_subset (ds : List String) :
    (validate_and_add_domains ds).1.Nonempty ∧
    (validate_and_add_domains ds).1 ⊆ allDomainsSet := by
  unfold validate_and_add_domains
  have hsub := validate_foldl_subset ds ∅ [] (Finset.empty_subset _)
  by_cases h : (ds.foldl validateStep (∅, [])).1 = ∅
  · simp only [h, if_pos rfl]
    exact ⟨allDomainsSet_nonempty, subset_rfl⟩
  · simp only [if_neg h]
    exact ⟨Finset.nonempty_iff_ne_empty.mpr h, hsub⟩

/-- C3: for a constructor input list with no entry normalizing to `"all"`,
the enabled set is exactly the set of entries whose trimmed, lower-cased
form is a declared domain value — unrecognized entries are dropped by the
total (never-raising) validation — and when no entry is recognized the
enabled set falls back to all nine domains. -/
theorem invalid_domains_dropped (l : List String)
    (hne : l ≠ []) (hall : ALL_DOMAINS ∉ l)
    (hnorm : ∀ d ∈ l, normalizeDomain d ≠ ALL_DOMAINS)
    (hinv : ∃ d ∈ l, normalizeDomain d ∉ availableDomains) :
    (parseDomains (.list l)).1 =
      if ((l.map normalizeDomain).filter
            (fun d => decide (d ∈ availableDomains))) = [] then
        allDomainsSet
      else ((l.map normalizeDomain).filter
            (fun d => decide (d ∈ availableDomains))).toFinset := by
  clear hinv
  have hlen : ¬ (l.length = 0 ∨ ALL_DOMAINS ∈ l) := by
    simp [hall, List.length_eq_zero, hne]
  rw [show parseDomains (.list l)
      = validate_and_add_domains (l.map normalizeDomain) by
    simp only [parseDomains, if_neg hne, if_neg hlen]]
  have hmap : ∀ d ∈ l.map normalizeDomain, d ≠ ALL_DOMAINS := by
    intro d hd
    rcases List.mem_map.mp hd with ⟨x, hx, rfl⟩
    exact hnorm x hx
  have hfold : (List.foldl validateStep (∅, []) (l.map normalizeDomain)).1 =
      ((l.map normalizeDomain).filter
        (fun d => decide (d ∈ availableDomains))).toFinset := by
    rw [validate_foldl_no_all (l.map normalizeDomain) hmap ∅ [],
      Finset.empty_union]
  rw [show (validate_and_add_domains (l.map normalizeDomain)).1 =
      if (List.foldl validateStep (∅, []) (l.map normalizeDomain)).1 = ∅ then
        allDomainsSet
      else (List.foldl validateStep (∅, []) (l.map normalizeDomain)).1 by
    unfold validate_and_add_domains
    by_cases hc : (List.foldl validateStep (∅, []) (l.map normalizeDomain)).1 = ∅
    · simp only [if_pos hc]
    · simp only [if_neg hc]]
  rw [hfold]
  by_cases h : ((l.map normalizeDomain).filter
      (fun d => decide (d ∈ availableDomains))) = []
  · rw [if_pos (by rw [h]; exact List.toFinset_nil), if_pos h]
  · have hts : ((l.map normalizeDomain).filter
        (fun d => decide (d ∈ availableDomains))).toFinset ≠ ∅ := by
      intro hc
      exact h ((List.toFinset_eq_empty_iff _).mp hc)
    rw [if_neg hts, if_neg h]

/-- Witness for C3 at the concrete input `["core", "bogus"]`. -/
theorem invalid_domains_dropped_witness :
    (parseDomains (.list ["core", "bogus"])).1 =
      if (((["core", "bogus"] : List String).map normalizeDomain).filter
            (fun d => decide (d ∈ availableDomains))) = [] then
        allDomainsSet
      else (((["core", "bogus"] : List String).map normalizeDomain).filter
            (fun d => decide (d ∈ availableDomains))).toFinset :=
  invalid_domains_dropped ["core", "bogus"] (by decide) (by decide)
    (by decide) ⟨"bogus", by decide, by decide⟩

/-- C10: for every constructor input (absent, any string, or any list of
strings), the enabled set after `DomainsManager` construction is a nonempty
subset of the nine declared domain values, and `is_domain_enabled` returns
`false` for every string that is not one of the nine. -/
theorem enabled_domains_invariant (inp : DomainsInput) :
    (parseDomains inp).1.Nonempty ∧
    (parseDomains inp).1 ⊆ allDomainsSet ∧
    ∀ s, s ∉ availableDomains → is_domain_enabled (parseDomains inp).1 s = false := by
  have key : (parseDomains inp).1.Nonempty ∧ (parseDomains inp).1 ⊆ allDomainsSet := by
    cases inp with
    | noval => exact ⟨allDomainsSet_nonempty, subset_rfl⟩
    | str s =>
      by_cases h1 : s = ""
      · rw [show parseDomains (.str s) = (allDomainsSet, []) by
          simp only [parseDomains, if_pos h1]]
        exact ⟨allDomainsSet_nonempty, subset_rfl⟩
      · by_cases h2 : s = ALL_DOMAINS
        · rw [show parseDomains (.str s) = (allDomainsSet, []) by
            simp only [parseDomains, if_neg h1, if_pos h2]]
          exact ⟨allDomainsSet_nonempty, subset_rfl⟩
        · rw [show parseDomains (.str s)
              = validate_and_add_domains ((pySplitOn s ",").map normalizeDomain) by
            simp only [parseDomains, if_neg h1, if_neg h2]]
          exact validate_and_add_nonempty_subset _
    | list l =>
      by_cases h1 : l = []
      · rw [show parseDomains (.list l) = (allDomainsSet, []) by
          simp only [parseDomains, if_pos h1]]
        exact ⟨allDomainsSet_nonempty, subset_rfl⟩
      · by_cases h2 : l.length = 0 ∨ ALL_DOMAINS ∈ l
        · rw [show parseDomains (.list l) = (allDomainsSet, []) by
            simp only [parseDomains, if_neg h1, if_pos h2]]
          exact ⟨allDomainsSet_nonempty, subset_rfl⟩
        · rw [show parseDomains (.list l)
              = validate_and_add_domains (l.map normalizeDomain) by
            simp only [parseDomains, if_neg h1, if_neg h2]]
          exact validate_and_add_nonempty_subset _
  refine ⟨key.1, key.2, fun s hs => ?_⟩
  have hmem : s ∉ (parseDomains inp).1 := by
    intro hx
    exact hs (List.mem_toFinset.mp (key.2 hx))
  simp [is_domain_enabled, hmem]

/-- Witness for C10 at the concrete input `["core", "bogus"]` and the
non-domain string `"zzz"`. -/
theorem enabled_domains_invariant_witness :
    is_domain_enabled (parseDomains (.list ["core", "bogus"])).1 "zzz" = false :=
  (enabled_domains_invariant (.list ["core", "bogus"])).2.2 "zzz" (by decide)
